import Mathlib

/-!
Verification of the analytics core of the OrionAI news-trend service
(`app.py`: `AnalyticsService`, `PredictionEngine`).

The Python source is shallowly embedded here:
* calendar days are modelled as proleptic-Gregorian ordinals (`ℤ`), the value
  `date.toordinal()` would give; ISO-8601 date strings compare lexicographically
  exactly as their ordinals compare numerically, so sorting by ordinal models
  sorting by ISO string;
* an article dict is a record; its `dt` field is `Option ℤ` — `none` models the
  entries for which `a["dt"].astimezone(utc).date()` raises (the `except: pass`
  path in `build_series`);
* CPython float arithmetic is modelled exactly over `ℚ`, and the transcendental
  steps (`**0.5`, `math.exp`, `statistics.pstdev`/`stdev`) over `ℝ`;
* `random.uniform(-0.2, 0.2)` draws are an explicit stream `ℕ → ℚ` (the i-th
  loop iteration reads draw i), so forecasts are functions of their randomness;
* Python `sorted` is a stable sort; `pySort` below is a stable insertion sort,
  extensionally equal to it for every comparator used here.
-/

namespace OrionAI

/-- Article item as produced by `NewsService.fetch`: a headline, a url and a
publication instant; `dt` holds the UTC calendar day (`none` when converting
the stored timestamp raises). -/
structure Article where
  titulo : String
  url : String
  dt : Option ℤ
deriving Repr, DecidableEq

/-- One point of the daily series: a calendar day and its article count
(`{"date": k, "count": buckets[k]}`). -/
structure SP where
  date : ℤ
  count : ℤ
deriving Repr, DecidableEq

/-! ### Stable sort, modelling Python `sorted` -/

/-- Insert `a` into `l`, keeping `a` before every element it is not strictly
greater than (strictly, w.r.t. the comparator): this is the insertion step of a
stable insertion sort. -/
def sIns (le : α → α → Bool) (a : α) : List α → List α
  | [] => [a]
  | b :: bs => if le b a && !le a b then b :: sIns le a bs else a :: b :: bs

/-- Stable sort by the boolean comparator `le`; extensionally equal to Python
`sorted` with the same (total-preorder) comparator, since every stable sort
computes the same output. -/
def pySort (le : α → α → Bool) : List α → List α
  | [] => []
  | a :: as => sIns le a (pySort le as)

/-! ### `AnalyticsService.build_series` -/

/-- Window-length coercion at the top of `build_series`: `int(dias)` with the
`except` default 7 (`none` models a non-numeric input), then
`max(1, min(180, dias))`. -/
def windowDaysClamp (diasIn : Option ℤ) : ℤ :=
  match diasIn with
  | none => 7
  | some n => max 1 (min 180 n)

/-- Bucket dict comprehension
`{(today + timedelta(days=i)).isoformat(): 0 for i in range(-(dias-1), 1)}`:
keys `today - (dias-1) + i` for `i = 0 .. dias-1`, in insertion order. -/
def bucketsInit (today : ℤ) (dias : ℤ) : List (ℤ × ℕ) :=
  (List.range dias.toNat).map (fun i : ℕ => (today - (dias - 1) + (i : ℤ), 0))

/-- Dict update `if d in buckets: buckets[d] += 1` on an insertion-ordered dict
with distinct keys: the entry holding key `d` (if any) is incremented in
place. -/
def bucketBump (b : List (ℤ × ℕ)) (d : ℤ) : List (ℤ × ℕ) :=
  b.map (fun kv => if kv.1 = d then (kv.1, kv.2 + 1) else kv)

/-- Dict read `buckets[k]`: the value stored under key `k` (the key is always
present at the use site; 0 is a dummy default keeping the model total). -/
def bGet : List (ℤ × ℕ) → ℤ → ℕ
  | [], _ => 0
  | (k, v) :: rest, key => if key = k then v else bGet rest key

/-- Body of the `for a in articles` loop in `build_series`: convert the
article timestamp to a UTC calendar day and bump that bucket; any exception in
the body is swallowed (`except: pass`), which the `none` case models. -/
def buildStep (bs : List (ℤ × ℕ)) (a : Article) : List (ℤ × ℕ) :=
  match a.dt with
  | none => bs
  | some d => bucketBump bs d

/-- `AnalyticsService.build_series(articles, dias)` with the reference day
`today = datetime.now(timezone.utc).date()` made an explicit parameter. -/
def build_series (artigos : List Article) (today : ℤ) (diasIn : Option ℤ) : List SP :=
  let dias := windowDaysClamp diasIn
  let b := artigos.foldl buildStep (bucketsInit today dias)
  let keys := pySort (fun x y => decide (x ≤ y)) (b.map Prod.fst)
  keys.map (fun k => ⟨k, (bGet b k : ℤ)⟩)

/-- Number of input articles whose parsed UTC day equals `k`. -/
def countOnDay (artigos : List Article) (k : ℤ) : ℕ :=
  (artigos.filter (fun a => a.dt = some k)).length

/-- Window membership: the article has a parsable timestamp and its UTC day
lies in the `dias`-day window ending at `today`. -/
def inWindow (today dias : ℤ) (a : Article) : Prop :=
  match a.dt with
  | none => False
  | some d => today - (dias - 1) ≤ d ∧ d ≤ today

instance (today dias : ℤ) (a : Article) : Decidable (inWindow today dias a) := by
  unfold inWindow
  match a.dt with
  | none => exact inferInstanceAs (Decidable False)
  | some d => exact inferInstanceAs (Decidable (_ ∧ _))

/-! ### Characterization of `build_series` -/

/-- Bucket dict whose value at each window day `today - (dias-1) + i` is given
by the function `f`; `bucketsInit` is the `f = 0` instance and the update loop
preserves this shape. -/
def mkB (today dias : ℤ) (f : ℤ → ℕ) : List (ℤ × ℕ) :=
  (List.range dias.toNat).map
    (fun i : ℕ => (today - (dias - 1) + (i : ℤ), f (today - (dias - 1) + (i : ℤ))))

theorem bucketsInit_eq_mkB (today dias : ℤ) :
    bucketsInit today dias = mkB today dias (fun _ => 0) := rfl

theorem bucketBump_mkB (today dias : ℤ) (f : ℤ → ℕ) (d : ℤ) :
    bucketBump (mkB today dias f) d
      = mkB today dias (fun k => if k = d then f k + 1 else f k) := by
  unfold bucketBump mkB
  rw [List.map_map]
  apply List.map_congr_left
  intro i _
  by_cases h : today - (dias - 1) + i = d <;> simp [h]

theorem countOnDay_cons (a : Article) (t : List Article) (k : ℤ) :
    countOnDay (a :: t) k
      = (if a.dt = some k then 1 else 0) + countOnDay t k := by
  unfold countOnDay
  by_cases h : a.dt = some k <;> simp [h, Nat.add_comm]

theorem foldl_buildStep_mkB (today dias : ℤ) (arts : List Article) :
    ∀ f : ℤ → ℕ,
      arts.foldl buildStep (mkB today dias f)
        = mkB today dias (fun k => f k + countOnDay arts k) := by
  induction arts with
  | nil =>
    intro f
    simp [countOnDay]
  | cons a t ih =>
    intro f
    rw [List.foldl_cons]
    cases ha : a.dt with
    | none =>
      rw [show buildStep (mkB today dias f) a = mkB today dias f by
            unfold buildStep; rw [ha]]
      rw [ih f]
      unfold mkB
      apply List.map_congr_left
      intro i _
      simp only [countOnDay_cons, ha]
      simp
    | some d =>
      rw [show buildStep (mkB today dias f) a = bucketBump (mkB today dias f) d by
            unfold buildStep; rw [ha]]
      rw [bucketBump_mkB, ih]
      unfold mkB
      apply List.map_congr_left
      intro i _
      simp only [countOnDay_cons, ha, Option.some.injEq]
      by_cases h : today - (dias - 1) + i = d
      · have h2 : d = today - (dias - 1) + i := h.symm
        simp only [if_pos h, if_pos h2]
        exact congrArg (Prod.mk _) (by omega)
      · have h2 : ¬ d = today - (dias - 1) + i := fun hh => h hh.symm
        simp only [if_neg h, if_neg h2]
        exact congrArg (Prod.mk _) (by omega)

theorem bGet_range_map :
    ∀ (n : ℕ) (g : ℕ → ℤ) (h : ℕ → ℕ), (∀ i j, g i = g j → i = j) →
      ∀ j : ℕ, j < n →
        bGet ((List.range n).map (fun i => (g i, h i))) (g j) = h j := by
  intro n
  induction n with
  | zero => intro g h _ j hj; omega
  | succ m ih =>
    intro g h hg j hj
    rw [List.range_succ_eq_map]
    cases j with
    | zero => simp [bGet]
    | succ j2 =>
      have hne : g (j2 + 1) ≠ g 0 := by
        intro hh
        have := hg _ _ hh
        omega
      simp only [List.map_cons, List.map_map, bGet, if_neg hne]
      have := ih (fun i => g (i + 1)) (fun i => h (i + 1))
        (fun i j hij => by have := hg (i + 1) (j + 1) hij; omega) j2 (by omega)
      simpa [Function.comp] using this

theorem pySort_of_chain_lt :
    ∀ l : List ℤ, l.Pairwise (· < ·) → pySort (fun x y => decide (x ≤ y)) l = l := by
  intro l
  induction l with
  | nil => intro _; rfl
  | cons a t ih =>
    intro hp
    have ht := List.Pairwise.of_cons hp
    have ha : ∀ b ∈ t, a < b := fun b hb => (List.pairwise_cons.mp hp).1 b hb
    unfold pySort
    rw [ih ht]
    cases t with
    | nil => rfl
    | cons b bs =>
      have hab : a < b := ha b (by simp)
      unfold sIns
      have : ¬ b ≤ a := by omega
      simp [this]

/-- Day `i` of the window (`i = 0` is the oldest day, `i = dias-1` is
today). -/
def wday (today dias : ℤ) (i : ℕ) : ℤ := today - (dias - 1) + i

/-- Closed form of `build_series`: exactly one point per window day, in
ascending day order, whose count is the number of articles dated that day. -/
theorem build_series_eq (artigos : List Article) (today : ℤ) (diasIn : Option ℤ) :
    build_series artigos today diasIn
      = (List.range (windowDaysClamp diasIn).toNat).map
          (fun i => ⟨wday today (windowDaysClamp diasIn) i,
                     (countOnDay artigos (wday today (windowDaysClamp diasIn) i) : ℤ)⟩) := by
  set dias := windowDaysClamp diasIn with hdias
  have hinj : ∀ i j : ℕ, wday today dias i = wday today dias j → i = j := by
    intro i j h
    unfold wday at h
    omega
  have hb : artigos.foldl buildStep (bucketsInit today dias)
      = mkB today dias (fun k => countOnDay artigos k) := by
    rw [bucketsInit_eq_mkB, foldl_buildStep_mkB]
    unfold mkB
    apply List.map_congr_left
    intro i _
    simp
  show (pySort _ ((artigos.foldl buildStep (bucketsInit today dias)).map Prod.fst)).map _ = _
  rw [hb]
  have hkeys : (mkB today dias (fun k => countOnDay artigos k)).map Prod.fst
      = (List.range dias.toNat).map (fun i => wday today dias i) := by
    unfold mkB wday
    rw [List.map_map]
    rfl
  rw [hkeys]
  have hsorted : ((List.range dias.toNat).map (fun i => wday today dias i)).Pairwise (· < ·) := by
    apply List.Pairwise.map
    · intro i j hij
      exact hij
    · apply List.Pairwise.imp ?_ (List.pairwise_lt_range dias.toNat)
      intro i j hij
      unfold wday
      omega
  rw [pySort_of_chain_lt _ hsorted, List.map_map]
  apply List.map_congr_left
  intro i hi
  have hib : i < dias.toNat := List.mem_range.mp hi
  have hget : bGet (mkB today dias (fun k => countOnDay artigos k)) (wday today dias i)
      = countOnDay artigos (wday today dias i) := by
    unfold mkB
    exact bGet_range_map dias.toNat (wday today dias)
      (fun j => countOnDay artigos (wday today dias j)) hinj i hib
  simp only [Function.comp]
  rw [hget]

/-- C2. For every article list and every windowDays input (coerced to int,
clamped to [1,180], defaulting to 7 when non-numeric), `build_series` returns
a series of exactly D points whose dates are D consecutive UTC calendar days
ending at today, every day present in ascending order (non-numeric input is
the `none` case of `diasIn`, and days carry the article count of that day —
zero when no article falls on it). -/
theorem C2_series_window_shape (artigos : List Article) (today : ℤ) (diasIn : Option ℤ) :
    ((build_series artigos today diasIn).map SP.date
        = (List.range (windowDaysClamp diasIn).toNat).map
            (fun i : ℕ => today - (windowDaysClamp diasIn - 1) + (i : ℤ)))
    ∧ ((build_series artigos today diasIn).length : ℤ) = windowDaysClamp diasIn
    ∧ ((build_series artigos today diasIn).map SP.date).getLast? = some today
    ∧ 1 ≤ windowDaysClamp diasIn ∧ windowDaysClamp diasIn ≤ 180
    ∧ windowDaysClamp none = 7
    ∧ (∀ p ∈ build_series artigos today diasIn,
        p.count = (countOnDay artigos p.date : ℤ)) := by
  have hD : 1 ≤ windowDaysClamp diasIn ∧ windowDaysClamp diasIn ≤ 180 := by
    cases diasIn with
    | none => constructor <;> norm_num [windowDaysClamp]
    | some n =>
      unfold windowDaysClamp
      constructor
      · exact le_max_left _ _
      · exact max_le (by norm_num) (min_le_left _ _)
  have hmap : (build_series artigos today diasIn).map SP.date
      = (List.range (windowDaysClamp diasIn).toNat).map
          (fun i : ℕ => today - (windowDaysClamp diasIn - 1) + (i : ℤ)) := by
    rw [build_series_eq, List.map_map]
    rfl
  refine ⟨hmap, ?_, ?_, hD.1, hD.2, rfl, ?_⟩
  · rw [build_series_eq, List.length_map, List.length_range]
    omega
  · rw [hmap]
    have h1 : (windowDaysClamp diasIn).toNat = ((windowDaysClamp diasIn).toNat - 1) + 1 := by
      omega
    rw [h1, List.range_succ, List.map_append, List.map_cons, List.map_nil,
      List.getLast?_concat]
    congr 1
    omega
  · intro p hp
    rw [build_series_eq] at hp
    obtain ⟨i, _, rfl⟩ := List.mem_map.mp hp
    rfl

theorem sum_map_add (l : List α) (f g : α → ℕ) :
    (l.map (fun x => f x + g x)).sum = (l.map f).sum + (l.map g).sum := by
  induction l with
  | nil => rfl
  | cons a t ih => simp [ih]; omega

theorem indicator_day_sum (d start : ℤ) (n : ℕ) :
    ((List.range n).map (fun i : ℕ => if d = start + (i : ℤ) then (1 : ℕ) else 0)).sum
      = if start ≤ d ∧ d < start + n then 1 else 0 := by
  induction n with
  | zero =>
    rw [List.range_zero, List.map_nil, List.sum_nil, if_neg (by omega)]
  | succ m ih =>
    rw [List.range_succ, List.map_append, List.sum_append, ih]
    simp only [List.map_cons, List.map_nil, List.sum_cons, List.sum_nil]
    by_cases h1 : start ≤ d ∧ d < start + (m : ℤ)
    · rw [if_pos h1, if_neg (by omega), if_pos (by push_cast; omega)]
      omega
    · rw [if_neg h1]
      by_cases h2 : d = start + (m : ℤ)
      · rw [if_pos h2, if_pos (by push_cast; omega)]
        omega
      · rw [if_neg h2, if_neg (by push_cast at h1 ⊢; omega)]
        omega

/-- Helper predicate for the mass lemma: the article day lies in
`[start, start + n)`. -/
def inSpan (start : ℤ) (n : ℕ) (a : Article) : Prop :=
  match a.dt with
  | none => False
  | some d => start ≤ d ∧ d < start + n

instance (start : ℤ) (n : ℕ) (a : Article) : Decidable (inSpan start n a) := by
  unfold inSpan
  match a.dt with
  | none => exact inferInstanceAs (Decidable False)
  | some d => exact inferInstanceAs (Decidable (_ ∧ _))

theorem countOnDay_window_sum (start : ℤ) (n : ℕ) :
    ∀ arts : List Article,
      ((List.range n).map (fun i : ℕ => countOnDay arts (start + (i : ℤ)))).sum
        = (arts.filter (fun a => decide (inSpan start n a))).length := by
  intro arts
  induction arts with
  | nil =>
    simp [countOnDay]
  | cons a t ih =>
    have hsplit : ((List.range n).map
        (fun i : ℕ => countOnDay (a :: t) (start + (i : ℤ)))).sum
        = ((List.range n).map
            (fun i : ℕ => if a.dt = some (start + (i : ℤ)) then (1 : ℕ) else 0)).sum
          + ((List.range n).map (fun i : ℕ => countOnDay t (start + (i : ℤ)))).sum := by
      rw [← sum_map_add]
      apply congrArg
      apply List.map_congr_left
      intro i _
      rw [countOnDay_cons]
    rw [hsplit, ih]
    cases ha : a.dt with
    | none =>
      have hz : ((List.range n).map
          (fun i : ℕ => if (none : Option ℤ) = some (start + (i : ℤ))
                        then (1 : ℕ) else 0)).sum = 0 := by
        simp
      rw [hz]
      have hns : ¬ inSpan start n a := by simp [inSpan, ha]
      simp [List.filter_cons, hns]
    | some d =>
      have hone : ((List.range n).map
          (fun i : ℕ => if (some d : Option ℤ) = some (start + (i : ℤ))
                        then (1 : ℕ) else 0)).sum
          = if start ≤ d ∧ d < start + n then 1 else 0 := by
        rw [show (fun i : ℕ => if (some d : Option ℤ) = some (start + (i : ℤ))
                               then (1 : ℕ) else 0)
              = (fun i : ℕ => if d = start + (i : ℤ) then (1 : ℕ) else 0) by
            funext i
            by_cases h : d = start + (i : ℤ)
            · rw [if_pos (by rw [h]), if_pos h]
            · rw [if_neg (by simpa using h), if_neg h]]
        exact indicator_day_sum d start n
      rw [hone]
      by_cases h : start ≤ d ∧ d < start + n
      · have hs : inSpan start n a := by simpa [inSpan, ha] using h
        simp only [List.filter_cons, decide_eq_true_eq, if_pos hs, List.length_cons]
        rw [if_pos h]
        omega
      · have hs : ¬ inSpan start n a := by simpa [inSpan, ha] using h
        simp only [List.filter_cons, decide_eq_true_eq, if_neg hs]
        rw [if_neg h]
        omega

/-- C3. The counts in the series sum to the number of input articles whose UTC
calendar day falls inside the window; articles with an unparsable timestamp
(`dt = none`) or a day outside the window contribute nothing, and the model is
total — no input fails the batch. -/
theorem C3_series_mass (artigos : List Article) (today : ℤ) (diasIn : Option ℤ) :
    ((build_series artigos today diasIn).map SP.count).sum
      = ((artigos.filter
            (fun a => decide (inWindow today (windowDaysClamp diasIn) a))).length : ℤ) := by
  set dias := windowDaysClamp diasIn with hdias
  have hD : 1 ≤ dias ∧ dias ≤ 180 := by
    rw [hdias]
    cases diasIn with
    | none => constructor <;> norm_num [windowDaysClamp]
    | some n =>
      unfold windowDaysClamp
      exact ⟨le_max_left _ _, max_le (by norm_num) (min_le_left _ _)⟩
  rw [build_series_eq, List.map_map]
  have hcast : (List.map (SP.count ∘ fun i : ℕ =>
      (⟨wday today dias i, (countOnDay artigos (wday today dias i) : ℤ)⟩ : SP))
        (List.range dias.toNat)).sum
      = (((List.range dias.toNat).map
          (fun i : ℕ => countOnDay artigos (wday today dias i))).sum : ℤ) := by
    rw [Nat.cast_list_sum, List.map_map]
    rfl
  rw [hcast]
  have hw : ∀ i : ℕ, wday today dias i = (today - (dias - 1)) + (i : ℤ) := by
    intro i; rfl
  simp only [hw]
  rw [countOnDay_window_sum (today - (dias - 1)) dias.toNat artigos]
  congr 1
  apply congrArg List.length
  apply List.filter_congr
  intro a _
  simp only [decide_eq_decide]
  cases hdt : a.dt with
  | none => simp [inSpan, inWindow, hdt]
  | some d =>
    simp only [inSpan, inWindow, hdt]
    have hcd : ((dias.toNat : ℤ)) = dias := by omega
    constructor
    · intro hh
      omega
    · intro hh
      omega

/-! ### Trend analysis: `AnalyticsService._trend_confidence` and
`PredictionEngine._calculate_trend` -/

/-- List indexing `vals[i]` as a rational (in-range at every use site; 0 is a
dummy default keeping the model total). -/
def listGetQ (l : List ℤ) (i : ℕ) : ℚ := ((l.getD i 0 : ℤ) : ℚ)

/-- Python `round(x)` (banker's rounding: round-half-to-even), the rounding
CPython applies to the exact value it holds. -/
def pyRoundInt {α : Type} [LinearOrderedField α] [FloorRing α] (x : α) : ℤ :=
  let f := ⌊x⌋
  let r := x - f
  if r < 1 / 2 then f
  else if 1 / 2 < r then f + 1
  else if f % 2 = 0 then f else f + 1

/-- Python `round(x, p)`: half-to-even rounding at `p` decimal digits. -/
def pyRoundTo {α : Type} [LinearOrderedField α] [FloorRing α] (x : α) (p : ℕ) : α :=
  (pyRoundInt (x * 10 ^ p) : α) / 10 ^ p

/-- Logistic confidence score of `_trend_confidence`:
`1 / (1 + math.exp(-slope / (statistics.pstdev(vals) + 1e-6)))`, taking the
slope and the population variance (pstdev squared) as exact rationals. -/
noncomputable def conf_score (slope variance : ℚ) : ℝ :=
  1 / (1 + Real.exp (-((slope : ℝ) / (Real.sqrt (variance : ℝ) + 1e-6))))

/-- Confidence label thresholds of `_trend_confidence`. -/
noncomputable def conf_label (score : ℝ) : String :=
  if score > 0.66 then "Alta" else if score < 0.33 then "Baixa" else "Média"

/-- Result tuple of `_trend_confidence`:
`(slope, pct, last_delta, score, conf_label)`. -/
structure TrendConf where
  slope : ℚ
  pct : ℚ
  last_delta : ℤ
  score : ℝ
  label : String

/-- `AnalyticsService._trend_confidence(vals)`. Rational arithmetic is exact;
`statistics.pstdev` and `math.exp` live in `ℝ`. The `try/except` around the
score cannot fire for `n ≥ 2` (`pstdev` is defined and
`|slope| ≤ 2·pstdev` keeps `math.exp` far from overflow), so it is not
modelled. -/
noncomputable def trend_confidence (vals : List ℤ) : TrendConf :=
  if vals.length < 2 then ⟨0, 0, 0, 1 / 2, "Média"⟩
  else
    let n : ℚ := vals.length
    let mean_x : ℚ := (((List.range vals.length).map (fun i : ℕ => (i : ℚ))).sum) / n
    let mean_y : ℚ := ((vals.map (fun v : ℤ => (v : ℚ))).sum) / n
    let num : ℚ := ((List.range vals.length).map
      (fun i : ℕ => ((i : ℚ) - mean_x) * (listGetQ vals i - mean_y))).sum
    let den0 : ℚ := ((List.range vals.length).map
      (fun i : ℕ => ((i : ℚ) - mean_x) ^ 2)).sum
    let den : ℚ := if den0 = 0 then 1 else den0
    let slope := num / den
    let last : ℚ := ((vals.getLast?.getD 0 : ℤ) : ℚ)
    let prev := vals.dropLast
    let prev_mean : ℚ := ((prev.map (fun v : ℤ => (v : ℚ))).sum) / (max 1 prev.length : ℕ)
    let pct : ℚ := if prev_mean > 0 then (last - prev_mean) / prev_mean * 100
                   else if last = 0 then 0 else 100
    let last_delta : ℤ := vals.getLast?.getD 0 - vals.getD (vals.length - 2) 0
    let variance : ℚ := ((vals.map (fun v : ℤ => ((v : ℚ) - mean_y) ^ 2)).sum) / n
    let score : ℝ := conf_score slope variance
    ⟨slope, pct, last_delta, score, conf_label score⟩

/-- `PredictionEngine._calculate_trend(counts)`: the same regression slope via
the textbook sum formula `(nΣxy − ΣxΣy) / (nΣxx − (Σx)²)`. -/
def calculate_trend (counts : List ℤ) : ℚ :=
  if counts.length < 2 then 0
  else
    let n : ℚ := counts.length
    let sum_x : ℚ := ((List.range counts.length).map (fun i : ℕ => (i : ℚ))).sum
    let sum_y : ℚ := (counts.map (fun v : ℤ => (v : ℚ))).sum
    let sum_xy : ℚ := ((List.range counts.length).map
      (fun i : ℕ => (i : ℚ) * listGetQ counts i)).sum
    let sum_xx : ℚ := ((List.range counts.length).map
      (fun i : ℕ => (i : ℚ) * (i : ℚ))).sum
    (n * sum_xy - sum_x * sum_y) / (n * sum_xx - sum_x * sum_x)

/-- C8. For n ≥ 2 and non-negative counts, the trend percentage change is
computed against the mean of all-but-the-last counts: it equals
`(last − mean(allButLast)) / mean(allButLast) × 100`, except that a zero
baseline yields 0 when the last count is 0 and 100 otherwise. -/
theorem C8_pct_mean_prior_baseline (vals : List ℤ) (h2 : 2 ≤ vals.length)
    (hnn : ∀ v ∈ vals, 0 ≤ v) :
    (trend_confidence vals).pct
      = if ((vals.dropLast.map (fun v : ℤ => (v : ℚ))).sum) / ((vals.length - 1 : ℕ) : ℚ) = 0
        then (if (vals.getLast?.getD 0 : ℤ) = 0 then (0 : ℚ) else 100)
        else (((vals.getLast?.getD 0 : ℤ) : ℚ)
                - ((vals.dropLast.map (fun v : ℤ => (v : ℚ))).sum) / ((vals.length - 1 : ℕ) : ℚ))
              / (((vals.dropLast.map (fun v : ℤ => (v : ℚ))).sum) / ((vals.length - 1 : ℕ) : ℚ))
              * 100 := by
  have hlen : ¬ vals.length < 2 := by omega
  have hcast : ((max 1 vals.dropLast.length : ℕ) : ℚ) = ((vals.length - 1 : ℕ) : ℚ) := by
    rw [show (max 1 vals.dropLast.length : ℕ) = vals.length - 1 by
      have := List.length_dropLast vals
      omega]
  set pm : ℚ := ((vals.dropLast.map (fun v : ℤ => (v : ℚ))).sum) / ((vals.length - 1 : ℕ) : ℚ)
    with hpm
  have hpm0 : 0 ≤ pm := by
    rw [hpm]
    apply div_nonneg
    · apply List.sum_nonneg
      intro x hx
      rcases List.mem_map.mp hx with ⟨w, hw, hwx⟩
      rw [← hwx]
      exact_mod_cast hnn w (List.dropLast_subset _ hw)
    · positivity
  simp only [trend_confidence, if_neg hlen]
  rw [hcast, ← hpm]
  by_cases hpos : pm > 0
  · rw [if_pos hpos, if_neg (ne_of_gt hpos)]
  · have hz : pm = 0 := le_antisymm (not_lt.mp hpos) hpm0
    rw [if_neg hpos, if_pos hz]
    by_cases hl : (vals.getLast?.getD 0 : ℤ) = 0
    · rw [if_pos (show ((vals.getLast?.getD 0 : ℤ) : ℚ) = 0 by exact_mod_cast hl),
        if_pos hl]
    · rw [if_neg (show ¬ ((vals.getLast?.getD 0 : ℤ) : ℚ) = 0 by exact_mod_cast hl),
        if_neg hl]

/-- Witness for C8 at the concrete list [0, 0, 5]: the zero baseline with a
non-zero last count yields 100. -/
theorem C8_pct_mean_prior_baseline_witness :
    2 ≤ ([0, 0, 5] : List ℤ).length
    ∧ (trend_confidence [0, 0, 5]).pct = 100 := by
  constructor
  · decide
  · have h := C8_pct_mean_prior_baseline [0, 0, 5] (by decide) (by decide)
    rw [h]
    norm_num

/-! ### C9: the two slope computations agree -/

theorem listSum_range_eq (f : ℕ → ℚ) (n : ℕ) :
    ((List.range n).map f).sum = ∑ i in Finset.range n, f i := by
  induction n with
  | zero => simp
  | succ m ih =>
    rw [List.range_succ, List.map_append, List.sum_append, Finset.sum_range_succ, ih]
    simp

theorem listSum_map_cast_eq (counts : List ℤ) :
    (counts.map (fun v : ℤ => (v : ℚ))).sum
      = ∑ i in Finset.range counts.length, listGetQ counts i := by
  induction counts with
  | nil => simp
  | cons a t ih =>
    rw [List.map_cons, List.sum_cons, List.length_cons, Finset.sum_range_succ']
    have hstep : ∀ i : ℕ, listGetQ (a :: t) (i + 1) = listGetQ t i := by
      intro i
      rfl
    have h0 : listGetQ (a :: t) 0 = (a : ℚ) := rfl
    rw [Finset.sum_congr rfl (fun i _ => hstep i), h0, ih]
    ring

theorem sum_range_cast_q (n : ℕ) :
    ∑ i in Finset.range n, (i : ℚ) = n * (n - 1) / 2 := by
  induction n with
  | zero => simp
  | succ m ih =>
    rw [Finset.sum_range_succ, ih]
    push_cast
    ring

theorem sum_range_mul_self_q (n : ℕ) :
    ∑ i in Finset.range n, (i : ℚ) * (i : ℚ) = n * (n - 1) * (2 * n - 1) / 6 := by
  induction n with
  | zero => simp
  | succ m ih =>
    rw [Finset.sum_range_succ, ih]
    push_cast
    ring

theorem sum_centered_mul (n : ℕ) (y : ℕ → ℚ) (a b : ℚ) :
    ∑ i in Finset.range n, (((i : ℚ) - a) * (y i - b))
      = (∑ i in Finset.range n, (i : ℚ) * y i)
        - a * (∑ i in Finset.range n, y i)
        - b * (∑ i in Finset.range n, (i : ℚ)) + n * (a * b) := by
  induction n with
  | zero => simp
  | succ m ih =>
    rw [Finset.sum_range_succ, Finset.sum_range_succ, Finset.sum_range_succ,
      Finset.sum_range_succ, ih]
    push_cast
    ring

theorem sum_centered_sq (n : ℕ) (a : ℚ) :
    ∑ i in Finset.range n, ((i : ℚ) - a) ^ 2
      = (∑ i in Finset.range n, (i : ℚ) * (i : ℚ))
        - 2 * a * (∑ i in Finset.range n, (i : ℚ)) + n * a ^ 2 := by
  induction n with
  | zero => simp
  | succ m ih =>
    rw [Finset.sum_range_succ, Finset.sum_range_succ, Finset.sum_range_succ, ih]
    push_cast
    ring

/-- C9. For every count list with n ≥ 2, the pattern-detection slope
(`_calculate_trend`, sum formula `(nΣxy − ΣxΣy)/(nΣxx − (Σx)²)`) equals the
trend-analysis OLS slope (`_trend_confidence`, mean-deviation covariance over
variance) on the same counts. -/
theorem C9_slope_equivalence (counts : List ℤ) (hn : 2 ≤ counts.length) :
    calculate_trend counts = (trend_confidence counts).slope := by
  have hlen : ¬ counts.length < 2 := by omega
  set m := counts.length with hm
  set mq : ℚ := (m : ℚ) with hmq
  have hmq0 : mq ≠ 0 := by
    rw [hmq]
    have : (2 : ℚ) ≤ (m : ℚ) := by exact_mod_cast hn
    positivity
  have hmq2 : (2 : ℚ) ≤ mq := by rw [hmq]; exact_mod_cast hn
  set Sx := ∑ i in Finset.range m, (i : ℚ) with hSx
  set Sy := ∑ i in Finset.range m, listGetQ counts i with hSy
  set Sxy := ∑ i in Finset.range m, (i : ℚ) * listGetQ counts i with hSxy
  set Sxx := ∑ i in Finset.range m, (i : ℚ) * (i : ℚ) with hSxx
  have hB : mq * Sxx - Sx * Sx = mq * mq * (mq - 1) * (mq + 1) / 12 := by
    rw [hSxx, hSx, sum_range_cast_q, sum_range_mul_self_q, ← hmq]
    ring
  have hBpos : 0 < mq * Sxx - Sx * Sx := by
    rw [hB]
    have h1 : 0 < mq := by linarith
    have h2 : 0 < mq - 1 := by linarith
    have h3 : 0 < mq + 1 := by linarith
    positivity
  have hBne : mq * Sxx - Sx * Sx ≠ 0 := ne_of_gt hBpos
  -- the centred denominator of `_trend_confidence`
  have hden0 : ∑ i in Finset.range m, ((i : ℚ) - Sx / mq) ^ 2
      = (mq * Sxx - Sx * Sx) / mq := by
    rw [sum_centered_sq, ← hSx, ← hSxx, ← hmq]
    field_simp
    ring
  have hden0ne : ∑ i in Finset.range m, ((i : ℚ) - Sx / mq) ^ 2 ≠ 0 := by
    rw [hden0]
    exact div_ne_zero hBne hmq0
  -- the centred numerator of `_trend_confidence`
  have hnum : ∑ i in Finset.range m, (((i : ℚ) - Sx / mq) * (listGetQ counts i - Sy / mq))
      = (mq * Sxy - Sx * Sy) / mq := by
    rw [sum_centered_mul, ← hSx, ← hSy, ← hSxy, ← hmq]
    field_simp
    ring
  -- evaluate both sides
  show calculate_trend counts = (trend_confidence counts).slope
  simp only [calculate_trend, trend_confidence, if_neg hlen]
  rw [listSum_range_eq (fun i : ℕ => (i : ℚ)) m,
    listSum_range_eq (fun i : ℕ => (i : ℚ) * listGetQ counts i) m,
    listSum_range_eq (fun i : ℕ => (i : ℚ) * (i : ℚ)) m,
    listSum_map_cast_eq counts]
  rw [listSum_range_eq
      (fun i : ℕ => ((i : ℚ) - Sx / mq) * (listGetQ counts i - Sy / mq)) m,
    listSum_range_eq (fun i : ℕ => ((i : ℚ) - Sx / mq) ^ 2) m]
  rw [if_neg hden0ne, hnum, hden0]
  rw [div_div_div_eq]
  rw [show (mq * Sxy - Sx * Sy) * mq / (mq * (mq * Sxx - Sx * Sx))
        = (mq * Sxy - Sx * Sy) / (mq * Sxx - Sx * Sx) by
      rw [mul_comm (mq * Sxy - Sx * Sy) mq, mul_div_mul_left _ _ hmq0]]

/-- Witness for C9 at the concrete list [1, 2]. -/
theorem C9_slope_equivalence_witness :
    2 ≤ ([1, 2] : List ℤ).length
    ∧ calculate_trend [1, 2] = (trend_confidence [1, 2]).slope :=
  ⟨by decide, C9_slope_equivalence [1, 2] (by decide)⟩

/-! ### C5: trend confidence on [1, 2, 4, 8, 16] -/

theorem exp_066_le : Real.exp 0.66 ≤ 33 / 17 := by
  have h := @Real.exp_bound' 0.66 (by norm_num) (by norm_num) 6 (by norm_num)
  refine le_trans h ?_
  norm_num [Finset.sum_range_succ, Nat.factorial]

/-- On [1,2,4,8,16] the OLS slope is 18/5 and the population variance is
744/25, so the logistic score is `1/(1+exp(-(18/5)/(√(744/25)+1e-6)))`, which
is ≈0.6592 — inside the Medium band (0.33, 0.66]. -/
theorem conf_label_at_15 : conf_label (conf_score (18 / 5) (744 / 25)) = "Média" := by
  have hcastv : ((744 / 25 : ℚ) : ℝ) = 744 / 25 := by norm_num
  have hcasts : ((18 / 5 : ℚ) : ℝ) = 18 / 5 := by norm_num
  set σ : ℝ := Real.sqrt ((744 / 25 : ℚ) : ℝ) with hσ
  have h60 : (60 / 11 : ℝ) ≤ σ := by
    rw [hσ, hcastv, Real.le_sqrt' (by norm_num)]
    norm_num
  have hσpos : (0 : ℝ) < σ + 1e-6 := by nlinarith
  set r : ℝ := ((18 / 5 : ℚ) : ℝ) / (σ + 1e-6) with hr
  have hr_le : r ≤ 0.66 := by
    rw [hr, hcasts, div_le_iff₀ hσpos]
    nlinarith
  have hr_pos : 0 < r := by
    rw [hr, hcasts]
    positivity
  have hexp_r : Real.exp r ≤ 33 / 17 :=
    le_trans (Real.exp_le_exp.mpr hr_le) exp_066_le
  have hexp_neg : (17 / 33 : ℝ) ≤ Real.exp (-r) := by
    rw [Real.exp_neg, show (17 / 33 : ℝ) = (33 / 17 : ℝ)⁻¹ by norm_num]
    exact inv_anti₀ (Real.exp_pos r) hexp_r
  have hexp_le1 : Real.exp (-r) ≤ 1 := by
    rw [show (1 : ℝ) = Real.exp 0 by rw [Real.exp_zero]]
    exact Real.exp_le_exp.mpr (by linarith)
  have hden_pos : (0 : ℝ) < 1 + Real.exp (-r) := by positivity
  have hscore_le : 1 / (1 + Real.exp (-r)) ≤ 33 / 50 := by
    have h1 : (50 / 33 : ℝ) ≤ 1 + Real.exp (-r) := by linarith
    calc 1 / (1 + Real.exp (-r))
        ≤ 1 / (50 / 33 : ℝ) := one_div_le_one_div_of_le (by norm_num) h1
      _ = 33 / 50 := by norm_num
  have hscore_ge : (1 / 2 : ℝ) ≤ 1 / (1 + Real.exp (-r)) := by
    have h1 : 1 + Real.exp (-r) ≤ 2 := by linarith
    calc (1 / 2 : ℝ) = 1 / 2 := by norm_num
      _ ≤ 1 / (1 + Real.exp (-r)) := one_div_le_one_div_of_le hden_pos h1
  rw [conf_label, conf_score, ← hσ, ← hr]
  rw [if_neg (by push_neg; rw [show (0.66 : ℝ) = 33 / 50 by norm_num]; exact hscore_le)]
  rw [if_neg (by push_neg; exact le_trans (by norm_num) hscore_ge)]

/-- Shared evaluation: `_trend_confidence` on [1,2,4,8,16] produces the score
and label of slope 18/5 and variance 744/25. -/
theorem trend_confidence_15_label :
    (trend_confidence [1, 2, 4, 8, 16]).label = conf_label (conf_score (18 / 5) (744 / 25)) := by
  norm_num [trend_confidence, listGetQ, List.range_succ]

/-- C5 counterexample. On counts [1,2,4,8,16] the code labels the trend
"Média" (score ≈ 0.6592 is not > 0.66), not "Alta" as the claim states. -/
theorem C5_counterexample_label_not_high :
    (trend_confidence [1, 2, 4, 8, 16]).label ≠ "Alta" := by
  rw [trend_confidence_15_label, conf_label_at_15]
  decide

/-- C5 amended. On counts [1,2,4,8,16] the slope is strictly positive (18/5)
and the confidence label is "Média": the logistic score
`logistic(slope/(pstdev+1e-6))` ≈ 0.6592 falls in the Medium band
(0.33 < score ≤ 0.66), not the High band. -/
theorem C5_trend_15_medium :
    (trend_confidence [1, 2, 4, 8, 16]).slope = 18 / 5
    ∧ (0 : ℚ) < (trend_confidence [1, 2, 4, 8, 16]).slope
    ∧ (trend_confidence [1, 2, 4, 8, 16]).label = "Média" := by
  refine ⟨?_, ?_, ?_⟩
  · norm_num [trend_confidence, listGetQ, List.range_succ]
  · have h : (trend_confidence [1, 2, 4, 8, 16]).slope = 18 / 5 := by
      norm_num [trend_confidence, listGetQ, List.range_succ]
    rw [h]
    norm_num
  · rw [trend_confidence_15_label, conf_label_at_15]

/-! ### Theme extraction: `PredictionEngine._extract_key_themes` -/

/-- Character-list prefix test (needle is a prefix of hay). -/
def pfx : List Char → List Char → Bool
  | [], _ => true
  | _ :: _, [] => false
  | a :: as, b :: bs => a == b && pfx as bs

/-- Python substring containment `needle in hay` on character lists. -/
def hasSub (needle : List Char) : List Char → Bool
  | [] => pfx needle []
  | c :: t => pfx needle (c :: t) || hasSub needle t

/-- Python `titulo.lower()`; ASCII case folding (the only uppercase letters in
the inputs under analysis are ASCII). -/
def toLowerList (s : String) : List Char := s.toList.map Char.toLower

/-- The `palavras_chave` table of `_extract_key_themes`, in source order. -/
def palavras_chave : List (String × List String) :=
  [("crescimento", ["cresce", "aumenta", "expande", "alta", "sobe", "crescimento",
      "avanço", "expansão"]),
   ("queda", ["cai", "diminui", "baixa", "queda", "reduz", "recua", "encolhe",
      "retração"]),
   ("crise", ["crise", "recessão", "colapso", "emergência", "problema",
      "dificuldade", "instabilidade"]),
   ("estabilidade", ["estável", "mantém", "consolida", "equilíbrio",
      "normalidade", "controle"]),
   ("governo", ["governo", "presidente", "ministro", "prefeito", "gestão",
      "administração", "executivo"]),
   ("política", ["político", "eleição", "partido", "votação", "legislativo",
      "congresso", "senado"]),
   ("medidas", ["medida", "decreto", "lei", "projeto", "programa", "iniciativa",
      "política pública"]),
   ("violência", ["violência", "crime", "assalto", "homicídio", "tiroteio",
      "assassinato", "latrocínio"]),
   ("segurança", ["segurança", "polícia", "investigação", "prisão", "operacao",
      "patrulha", "combate"]),
   ("paz", ["paz", "tranquilidade", "harmonia", "controle", "melhora", "redução",
      "diminuição"]),
   ("saúde", ["saúde", "hospital", "médico", "doença", "epidemia", "vacina",
      "tratamento", "sanitário"]),
   ("bem-estar", ["bem-estar", "qualidade", "vida", "saudável", "prevenção",
      "cuidados", "assistência"]),
   ("educação", ["educação", "escola", "universidade", "professor", "ensino",
      "aprendizado", "educacional"]),
   ("conhecimento", ["conhecimento", "pesquisa", "ciência", "tecnologia",
      "inovação", "descoberta"]),
   ("meio ambiente", ["meio ambiente", "natureza", "sustentabilidade", "clima",
      "poluição", "ambiental"]),
   ("conservação", ["conservação", "preservação", "proteção", "recursos",
      "ecologia", "biodiversidade"]),
   ("tecnologia", ["tecnologia", "digital", "internet", "aplicativo", "software",
      "inovação", "digitalização"]),
   ("progresso", ["progresso", "desenvolvimento", "avanço", "modernização",
      "futuro", "evolução"]),
   ("social", ["social", "comunidade", "população", "sociedade", "público",
      "coletivo"]),
   ("desigualdade", ["desigualdade", "pobreza", "fome", "miséria", "exclusão",
      "vulnerabilidade"])]

/-- Insertion-ordered dict update `temas[tema] = temas.get(tema, 0) + 1`. -/
def dBump : List (String × ℕ) → String → List (String × ℕ)
  | [], k => [(k, 1)]
  | (k2, v) :: rest, k =>
    if k = k2 then (k2, v + 1) :: rest else (k2, v) :: dBump rest k

/-- Inner loop body of `_extract_key_themes`: one keyword-table entry against
one lowercased headline. -/
def themeStep (tl : List Char) (d : List (String × ℕ)) (entry : String × List String) :
    List (String × ℕ) :=
  if entry.2.any (fun palavra => hasSub palavra.toList tl) then dBump d entry.1 else d

/-- `PredictionEngine._extract_key_themes(titulos)`: per headline, each
category with at least one trigger substring is counted once; the result is
sorted by count, descending, stably. -/
def extract_key_themes (titulos : List String) : List (String × ℕ) :=
  let temas := titulos.foldl
    (fun d titulo => palavras_chave.foldl (themeStep (toLowerList titulo)) d) []
  pySort (fun a b => decide (b.2 ≤ a.2)) temas

/-- C6 counterexample. The headline "Governo anuncia nova lei de segurança"
does not match the category "política": none of its trigger words (político,
eleição, partido, votação, legislativo, congresso, senado) occurs in the
headline, so the claim that the four categories {governo, política, medidas,
segurança} are all counted is false. -/
theorem C6_counterexample_politica_not_matched :
    "política" ∉ (extract_key_themes ["Governo anuncia nova lei de segurança"]).map
      Prod.fst := by
  decide

/-- C6 amended. The theme classifier applied to the single headline "Governo
anuncia nova lei de segurança" counts exactly the three categories governo
(trigger "governo"), medidas (trigger "lei") and segurança (trigger
"segurança") simultaneously — one headline incrementing several categories —
while "política" is not among them. -/
theorem C6_theme_multi_category :
    extract_key_themes ["Governo anuncia nova lei de segurança"]
      = [("governo", 1), ("medidas", 1), ("segurança", 1)] := by
  decide

/-! ### Narrative generation: `_detect_topic_type`,
`_generate_short_term_prediction`, `_generate_long_term_prediction`.
The rendered sentences are f-string interpolations of the fields kept in the
structures below; banding, gating and phrase selection — the testable
behavior — are modelled exactly. -/

/-- The `topic_patterns` table of `_detect_topic_type`, in source order. -/
def topic_patterns : List (String × List String) :=
  [("economia", ["economia", "mercado", "finanças", "dinheiro", "preço",
      "inflação", "dólar", "bolsa", "empregos", "investimento"]),
   ("segurança", ["criminalidade", "crime", "violência", "segurança", "assalto",
      "homicídio", "polícia", "violento", "roubo"]),
   ("política", ["política", "governo", "presidente", "eleição", "partido",
      "ministro", "congresso", "senado", "legislativo"]),
   ("saúde", ["saúde", "hospital", "doença", "médico", "epidemia", "vacina",
      "tratamento", "médico", "hospitalar"]),
   ("educação", ["educação", "escola", "universidade", "professor", "ensino",
      "aluno", "educacional", "aprendizado"]),
   ("tecnologia", ["tecnologia", "digital", "internet", "aplicativo", "software",
      "ciência", "inovação", "digital"]),
   ("meio ambiente", ["meio ambiente", "natureza", "clima", "sustentabilidade",
      "poluição", "ambiental", "ecologia"]),
   ("social", ["social", "pobreza", "desigualdade", "comunidade", "população",
      "sociedade", "comunitário"])]

/-- `PredictionEngine._detect_topic_type(tema, temas_principais)`: first table
entry matched by the topic, else by the joined principal themes, else
"geral". -/
def detect_topic_type (tema : String) (temas_principais : List String) : String :=
  let tema_lower := toLowerList tema
  match topic_patterns.find?
      (fun tp => tp.2.any (fun palavra => hasSub palavra.toList tema_lower)) with
  | some tp => tp.1
  | none =>
    let temas_str := toLowerList (String.intercalate " " temas_principais)
    match topic_patterns.find?
        (fun tp => tp.2.any (fun palavra => hasSub palavra.toList temas_str)) with
    | some tp => tp.1
    | none => "geral"

/-- Components of the short-term narrative string (the rendered text
interpolates these fields). -/
structure ShortTerm where
  tendencia_desc : String
  nivel_alerta : String
  tom : String
  tipo_tema : String
  sentimento : ℚ
  tema : String
deriving DecidableEq

/-- The `trend_templates` lookup of `_generate_short_term_prediction`:
per domain, the (positivo, negativo, neutro) phrase lists. -/
def trend_templates : List (String × (List String × List String × List String)) :=
  [("economia", (["crescimento econômico", "expansão do mercado",
      "melhora nos indicadores"],
     ["desaceleração econômica", "crise financeira", "queda nos mercados"],
     ["estabilidade econômica", "manutenção dos indicadores"])),
   ("segurança", (["melhora na segurança", "redução da criminalidade",
      "controle da violência"],
     ["aumento da criminalidade", "crise de segurança", "piora na violência"],
     ["situação estável", "manutenção dos índices"])),
   ("política", (["estabilidade política", "avanços governamentais",
      "consolidação democrática"],
     ["instabilidade política", "crise governamental", "conflitos partidários"],
     ["cenário político estável", "continuidade administrativa"])),
   ("saúde", (["melhora na saúde pública", "avanços médicos",
      "controle de doenças"],
     ["piora na saúde", "crise sanitária", "aumento de doenças"],
     ["situação sanitária estável", "manutenção dos serviços"])),
   ("educação", (["avanços educacional", "melhora no ensino",
      "investimentos em educação"],
     ["retrocesso educacional", "crise no ensino", "cortes na educação"],
     ["estabilidade educacional", "continuidade dos programas"])),
   ("geral", (["melhora na situação", "avanços significativos", "progresso"],
     ["piora na situação", "dificuldades crescentes", "retrocesso"],
     ["manutenção do cenário", "estabilidade", "continuidade"]))]

/-- Dict read with default: `trend_templates.get(tipo_tema,
trend_templates["geral"])`. -/
def templateFor (tipo : String) : List String × List String × List String :=
  match trend_templates.find? (fun t => t.1 == tipo) with
  | some t => t.2
  | none => (["melhora na situação", "avanços significativos", "progresso"],
     ["piora na situação", "dificuldades crescentes", "retrocesso"],
     ["manutenção do cenário", "estabilidade", "continuidade"])

/-- `PredictionEngine._generate_short_term_prediction`. -/
def generate_short_term_prediction (tema : String) (sentimento_medio : ℚ)
    (temas_principais : List String) (tipo_tema : String) : ShortTerm :=
  let dir_int : String × String :=
    if sentimento_medio < -(2/10) then
      ("negativo", if sentimento_medio < -(4/10) then "significativa" else "moderada")
    else if sentimento_medio > 2/10 then
      ("positivo", if sentimento_medio > 4/10 then "significativa" else "moderada")
    else ("neutro", "estável")
  let direcao := dir_int.1
  let intensidade := dir_int.2
  let template := templateFor tipo_tema
  let tendencia_desc :=
    (if direcao = "positivo" then template.1
     else if direcao = "negativo" then template.2.1
     else template.2.2).headD ""
  let nt : String × String :=
    if direcao = "negativo" then
      if intensidade = "significativa" then ("🔴 ALTO", "preocupante")
      else ("🟡 MODERADO", "cauteloso")
    else if direcao = "positivo" then
      if intensidade = "significativa" then ("🟢 MUITO POSITIVO", "otimista")
      else ("🟢 POSITIVO", "favorável")
    else ("🔵 ESTÁVEL", "equilibrado")
  ⟨tendencia_desc, nt.1, nt.2, tipo_tema, sentimento_medio, tema⟩

/-- Components of the long-term narrative sentence
`"Prevejo que {assunto} mostrarão {tendencia} durante {anos}, com {certeza}
{detalhe}."`; `anos` is the year pair rendered as "{y1}-{y2}". -/
structure LongTerm where
  tendencia : String
  anos : ℤ × ℤ
  certeza : String
  assunto : String
  detalhe : String
deriving DecidableEq

/-- `PredictionEngine._generate_long_term_prediction`, with
`current_year = datetime.now(timezone.utc).year` an explicit parameter. -/
def generate_long_term_prediction (tema : String) (sentimento_medio : ℚ)
    (temas_principais : List String) (tipo_tema : String) (total_noticias : ℕ)
    (current_year : ℤ) : LongTerm :=
  let next_year := current_year + 1
  let two_years := current_year + 2
  let tac : String × (ℤ × ℤ) × String :=
    if sentimento_medio < -(3/10) then
      if total_noticias > 20 then
        ("deterioração significativa", (current_year, next_year), "alta probabilidade")
      else
        ("possível deterioração", (current_year, two_years), "moderada probabilidade")
    else if sentimento_medio < -(1/10) then
      ("estagnação ou leve deterioração", (current_year, next_year),
        "moderada probabilidade")
    else if sentimento_medio > 3/10 then
      if total_noticias > 20 then
        ("melhora significativa", (current_year, next_year), "alta probabilidade")
      else
        ("progresso gradual", (current_year, two_years), "moderada probabilidade")
    else if sentimento_medio > 1/10 then
      ("melhora moderada", (current_year, next_year), "moderada probabilidade")
    else
      ("estabilidade com flutuações normais", (current_year, next_year),
        "probabilidade equilibrada")
  let ad : String × String :=
    if tipo_tema = "economia" then
      ("os indicadores econômicos", "com impacto no PIB, inflação e emprego")
    else if tipo_tema = "segurança" then
      ("os índices de criminalidade", "afetando a segurança pública")
    else if tipo_tema = "política" then
      ("o cenário político", "influenciando políticas públicas")
    else if tipo_tema = "saúde" then
      ("o sistema de saúde", "com reflexos na qualidade do atendimento")
    else if tipo_tema = "educação" then
      ("os indicadores educacionais", "impactando a qualidade do ensino")
    else ("o cenário atual", "com base nas tendências identificadas")
  ⟨tac.1, tac.2.1, tac.2.2, ad.1, ad.2⟩

/-- C7 counterexample. With sentiment mean 0 and 25 articles (> 20), the
long-term probability phrase is "probabilidade equilibrada", not the
"alta probabilidade" the claim requires for every articleCount > 20: the gate
only applies inside the |sentiment| > 0.3 branches. -/
theorem C7_counterexample_equilibrada :
    (generate_long_term_prediction "educação" 0 [] "educação" 25 2025).certeza
        = "probabilidade equilibrada"
    ∧ 20 < 25
    ∧ "probabilidade equilibrada" ≠ "alta probabilidade" := by
  refine ⟨?_, by omega, by decide⟩
  norm_num [generate_long_term_prediction]

/-- C7 amended. The probability phrase is "alta probabilidade" exactly when
articleCount > 20 AND the sentiment mean is outside [−0.3, 0.3];
"probabilidade equilibrada" exactly when the sentiment mean is in
[−0.1, 0.1]; and "moderada probabilidade" in every remaining case. -/
theorem C7_certeza_gate (tema : String) (s : ℚ) (tp : List String)
    (tipo : String) (total : ℕ) (y : ℤ) :
    ((generate_long_term_prediction tema s tp tipo total y).certeza
        = "alta probabilidade"
      ↔ (20 < total ∧ (s < -(3/10) ∨ 3/10 < s)))
    ∧ ((generate_long_term_prediction tema s tp tipo total y).certeza
        = "probabilidade equilibrada"
      ↔ (-(1/10) ≤ s ∧ s ≤ 1/10))
    ∧ ((generate_long_term_prediction tema s tp tipo total y).certeza
        = "moderada probabilidade"
      ↔ (¬ (20 < total ∧ (s < -(3/10) ∨ 3/10 < s))
          ∧ ¬ (-(1/10) ≤ s ∧ s ≤ 1/10))) := by
  unfold generate_long_term_prediction
  dsimp only
  split_ifs with h1 h2 h3 h4 h5 h6 <;> dsimp only
  · -- s < -3/10, total > 20 : alta
    exact ⟨iff_of_true rfl ⟨h2, Or.inl h1⟩,
      iff_of_false (by decide) (fun hc => by linarith [hc.1]),
      iff_of_false (by decide) (fun hc => hc.1 ⟨h2, Or.inl h1⟩)⟩
  · -- s < -3/10, total ≤ 20 : moderada
    exact ⟨iff_of_false (by decide) (fun hc => h2 hc.1),
      iff_of_false (by decide) (fun hc => by linarith [hc.1]),
      iff_of_true rfl ⟨fun hc => h2 hc.1, fun hc => by linarith [hc.1]⟩⟩
  · -- -3/10 ≤ s < -1/10 : moderada
    refine ⟨iff_of_false (by decide) ?_,
      iff_of_false (by decide) (fun hc => by linarith [hc.1]),
      iff_of_true rfl ⟨?_, fun hc => by linarith [hc.1]⟩⟩
    · rintro ⟨-, hs | hs⟩
      · exact h1 hs
      · linarith
    · rintro ⟨-, hs | hs⟩
      · exact h1 hs
      · linarith
  · -- s > 3/10, total > 20 : alta
    exact ⟨iff_of_true rfl ⟨h5, Or.inr h4⟩,
      iff_of_false (by decide) (fun hc => by linarith [hc.2]),
      iff_of_false (by decide) (fun hc => hc.1 ⟨h5, Or.inr h4⟩)⟩
  · -- s > 3/10, total ≤ 20 : moderada
    exact ⟨iff_of_false (by decide) (fun hc => h5 hc.1),
      iff_of_false (by decide) (fun hc => by linarith [hc.2]),
      iff_of_true rfl ⟨fun hc => h5 hc.1, fun hc => by linarith [hc.2]⟩⟩
  · -- 1/10 < s ≤ 3/10 : moderada
    refine ⟨iff_of_false (by decide) ?_,
      iff_of_false (by decide) (fun hc => by linarith [hc.2]),
      iff_of_true rfl ⟨?_, fun hc => by linarith [hc.2]⟩⟩
    · rintro ⟨-, hs | hs⟩
      · linarith
      · exact h4 hs
    · rintro ⟨-, hs | hs⟩
      · linarith
      · exact h4 hs
  · -- |s| ≤ 1/10 : equilibrada
    refine ⟨iff_of_false (by decide) ?_,
      iff_of_true rfl ⟨by linarith, by linarith⟩,
      iff_of_false (by decide) (fun hc => hc.2 ⟨by linarith, by linarith⟩)⟩
    rintro ⟨-, hs | hs⟩
    · exact h1 hs
    · exact h4 hs

/-! ### Forecast engine: `generate_future_predictions`, `detect_patterns`,
`_analyze_weekly_pattern` -/

/-- Python `int(x)` on a float: truncation toward zero. -/
def truncQ (x : ℚ) : ℤ := if 0 ≤ x then ⌊x⌋ else -⌊-x⌋

/-- Python `date.weekday()` (Monday = 0) on the proleptic-Gregorian ordinal:
ordinal 1 (0001-01-01) is a Monday. -/
def pyWeekday (d : ℤ) : ℤ := (d - 1) % 7

/-- Forecast point `{"date": ..., "count": ..., "is_prediction": True}`. -/
structure FP where
  date : ℤ
  count : ℤ
  is_prediction : Bool
deriving Repr, DecidableEq

/-- Result of `detect_patterns`: either the under-7-points marker
`{"sazonalidade": None, "tendencia": "insuficiente"}` or the dict with the
weekly pattern, the linear-regression slope and the sample stdev. -/
inductive Padroes where
  | insuficiente : Padroes
  | dados (sazonalidade : List (ℤ × ℚ)) (tendencia : ℚ) (volatilidade : ℝ) : Padroes

/-- Result of `generate_future_predictions`; `padroes = none` models the
`{"previsoes": [], "confianca": 0}` dict, which carries no pattern key. -/
structure Forecast where
  previsoes : List FP
  confianca : ℚ
  padroes : Option Padroes

/-- `PredictionEngine._analyze_weekly_pattern(series)`: counts grouped by
weekday (0 = Monday), averaged; weekdays with no data are omitted. -/
def analyze_weekly_pattern (series : List SP) : List (ℤ × ℚ) :=
  ((List.range 7).map (fun i : ℕ => (i : ℤ))).filterMap (fun i =>
    let vs := (series.filter (fun p => pyWeekday p.date = i)).map SP.count
    if vs.isEmpty then none
    else some (i, (vs.map (fun v : ℤ => (v : ℚ))).sum / (vs.length : ℚ)))

/-- `PredictionEngine.detect_patterns(series)`. -/
noncomputable def detect_patterns (series : List SP) : Padroes :=
  if series.length < 7 then .insuficiente
  else
    let counts := series.map SP.count
    let mc : ℚ := (counts.map (fun v : ℤ => (v : ℚ))).sum / (counts.length : ℚ)
    .dados (analyze_weekly_pattern series) (calculate_trend counts)
      (if 1 < counts.length then
        Real.sqrt ((((counts.map (fun v : ℤ => ((v : ℚ) - mc) ^ 2)).sum
            / ((counts.length - 1 : ℕ) : ℚ) : ℚ) : ℝ))
       else 0)

/-- `PredictionEngine.generate_future_predictions(series, days_ahead=7)`, with
the stream of `random.uniform(-0.2, 0.2)` draws explicit (`rand i` is the draw
of loop iteration `i`). -/
noncomputable def generate_future_predictions (series : List SP) (rand : ℕ → ℚ)
    (days_ahead : ℕ) : Forecast :=
  if series.length < 3 then ⟨[], 0, none⟩
  else
    let counts := series.map SP.count
    let last_value : ℚ :=
      if counts ≠ [] then ((counts.getLast?.getD 0 : ℤ) : ℚ) else 0
    let avg_value : ℚ :=
      if counts ≠ [] then (counts.map (fun v : ℤ => (v : ℚ))).sum / (counts.length : ℚ)
      else 0
    let last_date : ℤ := (series.getLast?.map SP.date).getD 0
    let predictions := (List.range days_ahead).map (fun i : ℕ =>
      let base_prediction : ℚ :=
        max 0 (last_value + (avg_value - last_value) * (1 / 10) * ((i : ℚ) + 1))
      let random_variation : ℚ := rand i * avg_value
      let final_prediction : ℚ := max 0 (base_prediction + random_variation)
      (⟨last_date + ((i : ℤ) + 1), truncQ final_prediction, true⟩ : FP))
    ⟨predictions, min (8 / 10) ((series.length : ℚ) / 10), some (detect_patterns series)⟩

theorem truncQ_max_zero (x : ℚ) : truncQ (max 0 x) = max 0 ⌊x⌋ := by
  unfold truncQ
  by_cases h : 0 ≤ x
  · rw [max_eq_right h, if_pos h, max_eq_right (Int.floor_nonneg.mpr h)]
  · push_neg at h
    rw [max_eq_left (le_of_lt h), if_pos le_rfl, Int.floor_zero,
      max_eq_left (Int.floor_nonpos (le_of_lt h))]

theorem getD_map_range (n i : ℕ) (hi : i < n) (f : ℕ → FP) (d : FP) :
    (((List.range n).map f).getD i d) = f i := by
  rw [List.getD_eq_getElem?_getD, List.getElem?_map, List.getElem?_range hi]
  rfl

/-- C4 amended. For every series of at least 3 points, horizon 7, and
uniform(−0.2, 0.2) draws, the forecast has exactly 7 points with dates
lastSeriesDate+1 .. lastSeriesDate+7 in order, and the i-th predicted count is
`max(0, ⌊base + perturbation⌋)` — `int()` truncation (= floor on these
non-negative values), not `round` — with
`base = max(0, lastValue + (avgValue − lastValue)·0.1·(i+1))` and
`perturbation = rand i · avgValue`; every predicted count is a non-negative
integer. -/
theorem C4_forecast_points (series : List SP) (rand : ℕ → ℚ)
    (h3 : 3 ≤ series.length)
    (hr : ∀ i : ℕ, -(1 / 5) ≤ rand i ∧ rand i ≤ 1 / 5) :
    (generate_future_predictions series rand 7).previsoes.length = 7
    ∧ ∀ i : ℕ, i < 7 →
        ((generate_future_predictions series rand 7).previsoes.getD i ⟨0, 0, false⟩
          = ⟨(series.getLast?.map SP.date).getD 0 + ((i : ℤ) + 1),
             max 0 ⌊max 0 (((series.map SP.count).getLast?.getD 0 : ℚ)
                 + ((((series.map SP.count).map (fun v : ℤ => (v : ℚ))).sum
                      / (series.length : ℚ))
                    - ((series.map SP.count).getLast?.getD 0 : ℚ)) * (1 / 10)
                   * ((i : ℚ) + 1))
               + rand i * (((series.map SP.count).map (fun v : ℤ => (v : ℚ))).sum
                   / (series.length : ℚ))⌋,
             true⟩
          ∧ 0 ≤ ((generate_future_predictions series rand 7).previsoes.getD i
                  ⟨0, 0, false⟩).count) := by
  have hlen : ¬ series.length < 3 := by omega
  have hmaplen : (series.map SP.count).length = series.length := List.length_map _ _
  have hne : series.map SP.count ≠ [] := by
    apply List.ne_nil_of_length_pos
    rw [hmaplen]
    omega
  constructor
  · simp only [generate_future_predictions, if_neg hlen]
    rw [List.length_map, List.length_range]
  · intro i hi
    have hpoint : (generate_future_predictions series rand 7).previsoes.getD i ⟨0, 0, false⟩
        = ⟨(series.getLast?.map SP.date).getD 0 + ((i : ℤ) + 1),
           truncQ (max 0
             ((max 0 (((series.map SP.count).getLast?.getD 0 : ℚ)
                 + ((((series.map SP.count).map (fun v : ℤ => (v : ℚ))).sum
                      / (series.length : ℚ))
                    - ((series.map SP.count).getLast?.getD 0 : ℚ)) * (1 / 10)
                   * ((i : ℚ) + 1)))
               + rand i * (((series.map SP.count).map (fun v : ℤ => (v : ℚ))).sum
                   / (series.length : ℚ)))),
           true⟩ := by
      simp only [generate_future_predictions, if_neg hlen]
      rw [getD_map_range 7 i hi]
      rw [if_pos hne, if_pos hne, hmaplen]
    refine ⟨?_, ?_⟩
    · rw [hpoint, truncQ_max_zero]
    · rw [hpoint]
      show (0 : ℤ) ≤ truncQ _
      rw [truncQ_max_zero]
      exact le_max_left 0 _

/-- C4 witness: the amended theorem applied to the concrete series
(0,5),(1,5),(2,5) with the constant draw 0.12. -/
theorem C4_forecast_points_witness :
    3 ≤ ([⟨0, 5⟩, ⟨1, 5⟩, ⟨2, 5⟩] : List SP).length
    ∧ (∀ i : ℕ, -(1 / 5) ≤ ((fun _ => (3 / 25 : ℚ)) i)
        ∧ ((fun _ => (3 / 25 : ℚ)) i) ≤ 1 / 5)
    ∧ (generate_future_predictions [⟨0, 5⟩, ⟨1, 5⟩, ⟨2, 5⟩]
        (fun _ => 3 / 25) 7).previsoes.length = 7 :=
  ⟨by decide, fun i => by norm_num,
    (C4_forecast_points [⟨0, 5⟩, ⟨1, 5⟩, ⟨2, 5⟩] (fun _ => 3 / 25)
      (by decide) (fun i => by norm_num)).1⟩

/-- C4 counterexample. On the 3-point constant series 5,5,5 with draw 0.12
(inside (−0.2, 0.2)), the code predicts `int(5.6) = 5` for the first day,
while the claim formula `max(0, round(base + perturbation)) = round(5.6) = 6`:
the code truncates, it does not round. -/
theorem C4_counterexample_trunc_vs_round :
    ((generate_future_predictions [⟨0, 5⟩, ⟨1, 5⟩, ⟨2, 5⟩] (fun _ => 3 / 25) 7).previsoes.getD
        0 ⟨0, 0, false⟩).count = 5
    ∧ (-(1 / 5) : ℚ) ≤ 3 / 25 ∧ (3 / 25 : ℚ) ≤ 1 / 5
    ∧ max 0 (round ((5 : ℚ) + (3 / 25) * 5)) = (6 : ℤ) := by
  refine ⟨?_, by norm_num, by norm_num, ?_⟩
  · simp only [generate_future_predictions]
    rw [if_neg (by norm_num)]
    rw [getD_map_range 7 0 (by norm_num)]
    norm_num [truncQ]
    rw [if_neg (show ¬ ([5, 5, 5] : List ℤ) = [] by decide),
      if_neg (show ¬ ([5, 5, 5] : List ℤ) = [] by decide)]
    norm_num
  · rw [show ((5 : ℚ) + (3 / 25) * 5) = 28 / 5 by norm_num, round_eq]
    norm_num

/-! ### Content analysis: `PredictionEngine.analyze_news_content` -/

/-- `PredictionEngine._analyze_sentiments` (and
`AnalyticsService._sentiment`): per-title compound scores from the external
VADER analyzer; `none` models the import failing, in which case every article
scores 0.0. -/
def analyze_sentiments (scorer : Option (String → ℚ)) (titulos : List String) : List ℚ :=
  match scorer with
  | some f => titulos.map f
  | none => titulos.map (fun _ => 0)

/-- `PredictionEngine._calculate_content_confidence(artigos, sentimentos)`. -/
def calculate_content_confidence (artigos : List Article) (sentimentos : List ℚ) : ℚ :=
  if artigos.length < 3 then 3 / 10
  else
    let c1 : ℚ := 5 / 10
    let c2 : ℚ :=
      if 15 ≤ artigos.length then c1 + 3 / 10
      else if 10 ≤ artigos.length then c1 + 2 / 10
      else if 5 ≤ artigos.length then c1 + 1 / 10
      else c1
    let c3 : ℚ :=
      if sentimentos ≠ [] ∧ 1 < sentimentos.length then
        let m : ℚ := sentimentos.sum / (sentimentos.length : ℚ)
        let variancia : ℚ :=
          (sentimentos.map (fun x => (x - m) ^ 2)).sum / ((sentimentos.length - 1 : ℕ) : ℚ)
        if variancia < 5 / 100 then c2 + 2 / 10
        else if variancia < 1 / 10 then c2 + 1 / 10
        else c2
      else c2
    min (95 / 100) (max (1 / 10) c3)

/-- The narrative text of `analyze_news_content`: either the fixed no-data
sentence "Não há notícias suficientes para análise." or the combined
short-term/annual-perspective prediction whose components are below. -/
inductive PrevisaoTexto where
  | semDados : PrevisaoTexto
  | completa (curto : ShortTerm) (longo : LongTerm) : PrevisaoTexto
deriving DecidableEq

/-- `PredictionEngine._generate_content_based_prediction`: assembles the
short- and long-term narrative components. -/
def generate_content_based_prediction (tema : String) (artigos : List Article)
    (sentimentos : List ℚ) (temas_chave : List (String × ℕ)) (current_year : ℤ) :
    ShortTerm × LongTerm :=
  let sentimento_medio : ℚ :=
    if sentimentos ≠ [] then sentimentos.sum / (sentimentos.length : ℚ) else 0
  let temas_principais := (temas_chave.take 3).map Prod.fst
  let tipo_tema := detect_topic_type tema temas_principais
  (generate_short_term_prediction tema sentimento_medio temas_principais tipo_tema,
   generate_long_term_prediction tema sentimento_medio temas_principais tipo_tema
     artigos.length current_year)

/-- Result dict of `analyze_news_content`. -/
structure ContentAnalysis where
  previsao_texto : PrevisaoTexto
  confianca : ℚ
  sentimento_medio : ℚ
  temas_detectados : List (String × ℕ)
  total_noticias_analisadas : ℕ
deriving DecidableEq

/-- `PredictionEngine.analyze_news_content(tema, artigos, series)`; the
`series` argument is unused in the source body and kept for shape. -/
def analyze_news_content (scorer : Option (String → ℚ)) (tema : String)
    (artigos : List Article) (series : List SP) (current_year : ℤ) : ContentAnalysis :=
  if artigos = [] then
    ⟨.semDados, 1 / 10, 0, [], 0⟩
  else
    let titulos := artigos.map Article.titulo
    let sentimentos := analyze_sentiments scorer titulos
    let temas_chave := extract_key_themes titulos
    let cl := generate_content_based_prediction tema artigos sentimentos temas_chave
      current_year
    let confianca := calculate_content_confidence artigos sentimentos
    ⟨.completa cl.1 cl.2, confianca,
     (if sentimentos ≠ [] then sentimentos.sum / (sentimentos.length : ℚ) else 0),
     temas_chave.take 5, artigos.length⟩

/-! ### Orchestration: `AnalyticsService._basic_analyze`, spikes and
`AnalyticsService.analyze` -/

/-- One entry of the fixed `hipoteses` catalog of `_basic_analyze`. -/
structure Hipotese where
  descricao : String
  indicadores : List String
  validacaoRapida : List String
deriving DecidableEq

/-- The constant `hipoteses` list returned by `_basic_analyze`. -/
def hipoteses_fixed : List Hipotese :=
  [⟨"Cobertura deve manter inércia de curto prazo.",
    ["Contagem diária (RSS)", "Média móvel de 3 dias"],
    ["Coletar por 3–5 dias e comparar com janela anterior"]⟩,
   ⟨"Acontecimentos de governo/políticas geram picos pontuais.",
    ["Termos: Ministério, Secretaria, projeto de lei"],
    ["Filtrar manchetes por termos regulatórios", "Checar fontes oficiais"]⟩,
   ⟨"Influencers/edtechs podem criar ondas de atenção.",
    ["Posts patrocinados", "Lives/lançamentos"],
    ["Monitorar hashtags no X/YouTube", "Google Trends 7 vs 30 dias"]⟩]

/-- Components of the `resumo` sentence built by `_basic_analyze`
(`"Volume {label}. Último dia: {last}. Média anterior: {mean_prev:.1f}. ..."`). -/
structure BasicView where
  label : String
  last : ℤ
  mean_prev : ℚ
  change : ℤ
  momentum : ℤ
deriving DecidableEq

/-- `AnalyticsService._basic_analyze(series)`; returns the summary components,
the fixed hypothesis catalog, and the extracted count list. Note the Python
floats 1.25 and 0.75 are exactly 5/4 and 3/4. -/
def basic_analyze (series : List SP) : BasicView × List Hipotese × List ℤ :=
  let vals0 := series.map (fun p => p.count)
  let vals := if vals0 = [] then [0] else vals0
  let last := vals.getLast?.getD 0
  let prev0 := vals.dropLast
  let prev := if prev0 = [] then [0] else prev0
  let mean_prev : ℚ := ((prev.map (fun v : ℤ => (v : ℚ))).sum) / (max 1 prev.length : ℕ)
  let change := last - prev.getLast?.getD 0
  let momentum := change -
    (if 1 < prev.length then prev.getLast?.getD 0 - prev.getD (prev.length - 2) 0 else 0)
  let label :=
    if mean_prev = 0 ∧ last = 0 then "sem variação (baixa cobertura)"
    else if (last : ℚ) > mean_prev * (5 / 4) then "em alta"
    else if (last : ℚ) < mean_prev * (3 / 4) then "em baixa"
    else "estável"
  (⟨label, last, mean_prev, change, momentum⟩, hipoteses_fixed, vals)

/-- The `resumo` field of the analysis: either the draft summary unchanged
(no `GEMINI_API_KEY`, an exception, or empty LLM output — `summarize` returns
`resumo_base`) or text from an external LLM refinement. -/
inductive Resumo where
  | base (r : BasicView) : Resumo
  | refined (text : String) : Resumo
deriving DecidableEq

/-- `AnalyticsService.summarize`: the external text refiner as an optional
collaborator result. -/
def summarize (refine : Option String) (bv : BasicView) : Resumo :=
  match refine with
  | none => .base bv
  | some t => .refined t

open Classical in
/-- The spike scan inlined in `analyze`: mean and population stdev over the
window counts, and every date whose z-score reaches 2 (when stdev > 1e-6). -/
noncomputable def spikesOf (series : List SP) (vals : List ℤ) : List ℤ :=
  let mu : ℚ := ((vals.map (fun v : ℤ => (v : ℚ))).sum) / (max 1 vals.length : ℕ)
  let sd : ℝ :=
    if vals ≠ [] then
      Real.sqrt ((((vals.map (fun x : ℤ => ((x : ℚ) - mu) ^ 2)).sum
          / (max 1 vals.length : ℕ) : ℚ) : ℝ))
    else 0
  ((series.map SP.date).zip vals).filterMap (fun p =>
    if sd > 1e-6 ∧ (((p.2 : ℚ) : ℝ) - (mu : ℝ)) / sd ≥ 2 then some p.1 else none)

/-- The `trend` dict of the analysis result (`score` is rounded to 4 digits,
`slope` to 6, `pct` to 2, as in the source). -/
structure TrendOut where
  slope : ℚ
  pct : ℚ
  last_delta : ℤ
  confidence : String
  score : ℝ

/-- The full result dict of `AnalyticsService.analyze`. -/
structure AnalyzeResult where
  series : List SP
  resumo : Resumo
  hipoteses : List Hipotese
  trend : TrendOut
  sentiment_mean : ℚ
  spikes : List ℤ
  future_predictions : Forecast
  content_analysis : ContentAnalysis

/-- `AnalyticsService.analyze(tema, artigos, dias)`. External state is
explicit: `today`/`current_year` are the UTC clock reads, `rand` the
request-scoped random stream, `scorer` the optional VADER sentiment
collaborator, and `refine` the optional LLM text refiner outcome. -/
noncomputable def analyze (scorer : Option (String → ℚ)) (refine : Option String)
    (tema : String) (artigos : List Article) (dias : Option ℤ)
    (today current_year : ℤ) (rand : ℕ → ℚ) : AnalyzeResult :=
  let series0 := build_series artigos today dias
  let series := pySort (fun a b => decide (a.date ≤ b.date)) series0
  let bv := basic_analyze series
  let vals := bv.2.2
  let resumo := summarize refine bv.1
  let tc := trend_confidence vals
  let analise_conteudo := analyze_news_content scorer tema artigos series current_year
  let future_predictions := generate_future_predictions series rand 7
  let spikes := spikesOf series vals
  let sent_scores := analyze_sentiments scorer (artigos.map Article.titulo)
  let sent_mean : ℚ :=
    if sent_scores ≠ [] then
      pyRoundTo (sent_scores.sum / (max 1 sent_scores.length : ℕ)) 3
    else 0
  { series := series
    resumo := resumo
    hipoteses := bv.2.1
    trend := ⟨pyRoundTo tc.slope 6, pyRoundTo tc.pct 2, tc.last_delta, tc.label,
      pyRoundTo tc.score 4⟩
    sentiment_mean := sent_mean
    spikes := spikes
    future_predictions := future_predictions
    content_analysis := analise_conteudo }

/-! ### C1: end-to-end analysis of topic "X" with no articles, window 7 -/

theorem pySort_sp_of_chain_lt :
    ∀ l : List SP, (l.map SP.date).Pairwise (· < ·) →
      pySort (fun a b => decide (a.date ≤ b.date)) l = l := by
  intro l
  induction l with
  | nil => intro _; rfl
  | cons a t ih =>
    intro hp
    rw [List.map_cons, List.pairwise_cons] at hp
    have ht := hp.2
    have ha : ∀ b ∈ t, a.date < b.date := by
      intro b hb
      exact hp.1 b.date (List.mem_map_of_mem SP.date hb)
    unfold pySort
    rw [ih ht]
    cases t with
    | nil => rfl
    | cons b bs =>
      have hab : a.date < b.date := ha b (by simp)
      unfold sIns
      have : ¬ b.date ≤ a.date := by omega
      simp [this]

theorem build_series_empty_7 (today : ℤ) :
    build_series [] today (some 7)
      = (List.range 7).map (fun i : ℕ => (⟨today - 6 + (i : ℤ), 0⟩ : SP)) := by
  rw [build_series_eq]
  have h7 : windowDaysClamp (some 7) = 7 := by norm_num [windowDaysClamp]
  rw [h7]
  apply List.map_congr_left
  intro i _
  unfold wday countOnDay
  simp only [List.filter_nil, List.length_nil, Nat.cast_zero]
  congr 1

theorem analyze_series_empty_7 (today : ℤ) :
    pySort (fun a b => decide (a.date ≤ b.date)) (build_series [] today (some 7))
      = (List.range 7).map (fun i : ℕ => (⟨today - 6 + (i : ℤ), 0⟩ : SP)) := by
  rw [build_series_empty_7]
  apply pySort_sp_of_chain_lt
  rw [List.map_map]
  apply List.Pairwise.map
  · intro i j hij
    exact hij
  · apply List.Pairwise.imp ?_ (List.pairwise_lt_range 7)
    intro i j hij
    show today - 6 + (i : ℤ) < today - 6 + (j : ℤ)
    omega

theorem spikesOf_zero7 (series : List SP) :
    spikesOf series [0, 0, 0, 0, 0, 0, 0] = [] := by
  unfold spikesOf
  rw [List.filterMap_eq_nil]
  intro p _
  rw [if_neg]
  rintro ⟨h1, -⟩
  rw [if_pos (by decide : ([0, 0, 0, 0, 0, 0, 0] : List ℤ) ≠ [])] at h1
  rw [show (max 1 ([0, 0, 0, 0, 0, 0, 0] : List ℤ).length : ℕ) = 7 by decide] at h1
  have harg : ((([0, 0, 0, 0, 0, 0, 0] : List ℤ).map
      (fun x : ℤ => ((x : ℚ) - (((([0, 0, 0, 0, 0, 0, 0] : List ℤ).map
        (fun v : ℤ => (v : ℚ))).sum) / ((7 : ℕ) : ℚ))) ^ 2)).sum / ((7 : ℕ) : ℚ) : ℚ)
      = 0 := by
    norm_num
  rw [harg] at h1
  norm_num [Real.sqrt_zero] at h1

theorem gfp_zero7_previsoes (today : ℤ) (rand : ℕ → ℚ) :
    (generate_future_predictions
        ((List.range 7).map (fun i : ℕ => (⟨today - 6 + (i : ℤ), 0⟩ : SP))) rand 7).previsoes
      = (List.range 7).map (fun i : ℕ => (⟨today + 1 + (i : ℤ), 0, true⟩ : FP)) := by
  have hlen : ¬ ((List.range 7).map
      (fun i : ℕ => (⟨today - 6 + (i : ℤ), 0⟩ : SP))).length < 3 := by
    rw [List.length_map, List.length_range]
    norm_num
  have hcounts : ((List.range 7).map
      (fun i : ℕ => (⟨today - 6 + (i : ℤ), 0⟩ : SP))).map SP.count
      = [0, 0, 0, 0, 0, 0, 0] := rfl
  have hlast : ((List.range 7).map
      (fun i : ℕ => (⟨today - 6 + (i : ℤ), 0⟩ : SP))).getLast?
      = some ⟨today - 6 + ((6 : ℕ) : ℤ), 0⟩ := rfl
  simp only [generate_future_predictions, if_neg hlen, hcounts, hlast]
  apply List.map_congr_left
  intro i _
  rw [if_pos (by decide : ([0, 0, 0, 0, 0, 0, 0] : List ℤ) ≠ []),
    if_pos (by decide : ([0, 0, 0, 0, 0, 0, 0] : List ℤ) ≠ [])]
  rw [show (([0, 0, 0, 0, 0, 0, 0] : List ℤ).getLast?.getD 0) = (0 : ℤ) from rfl]
  rw [(show ((([0, 0, 0, 0, 0, 0, 0] : List ℤ).map (fun v : ℤ => (v : ℚ))).sum = (0 : ℚ))
    by norm_num)]
  congr 1
  · show today - 6 + ((6 : ℕ) : ℤ) + ((i : ℤ) + 1) = today + 1 + (i : ℤ)
    push_cast
    ring
  · norm_num [truncQ]

theorem gfp_zero7_confianca (today : ℤ) (rand : ℕ → ℚ) :
    (generate_future_predictions
        ((List.range 7).map (fun i : ℕ => (⟨today - 6 + (i : ℤ), 0⟩ : SP))) rand 7).confianca
      = 7 / 10 := by
  have hlen : ¬ ((List.range 7).map
      (fun i : ℕ => (⟨today - 6 + (i : ℤ), 0⟩ : SP))).length < 3 := by
    rw [List.length_map, List.length_range]
    norm_num
  simp only [generate_future_predictions, if_neg hlen]
  rw [List.length_map, List.length_range]
  norm_num

/-- C1 amended. For topic "X", an empty article list and windowDays 7, the
analysis yields: a series of 7 zero-count points ending at today; trend slope
0; no spikes; sentiment mean 0.0; the narrative takes the no-data branch
("Não há notícias suficientes para análise.", confidence 0.1); and — contrary
to the original claim — the volume forecast is NOT the insufficient-points
default: the 7-point zero series reaches `generate_future_predictions`, which
returns 7 zero-count points with confidence min(0.8, 7/10) = 0.7. -/
theorem C1_empty_analysis (today y : ℤ) (rand : ℕ → ℚ)
    (scorer : Option (String → ℚ)) (refine : Option String) :
    (analyze scorer refine "X" [] (some 7) today y rand).series
        = (List.range 7).map (fun i : ℕ => (⟨today - 6 + (i : ℤ), 0⟩ : SP))
    ∧ (analyze scorer refine "X" [] (some 7) today y rand).trend.slope = 0
    ∧ (analyze scorer refine "X" [] (some 7) today y rand).spikes = []
    ∧ (analyze scorer refine "X" [] (some 7) today y rand).sentiment_mean = 0
    ∧ (analyze scorer refine "X" [] (some 7) today y rand).future_predictions.previsoes
        = (List.range 7).map (fun i : ℕ => (⟨today + 1 + (i : ℤ), 0, true⟩ : FP))
    ∧ (analyze scorer refine "X" [] (some 7) today y rand).future_predictions.confianca
        = 7 / 10
    ∧ (analyze scorer refine "X" [] (some 7) today y rand).content_analysis
        = ⟨.semDados, 1 / 10, 0, [], 0⟩ := by
  have hs7 := analyze_series_empty_7 today
  have hvals : (basic_analyze
      ((List.range 7).map (fun i : ℕ => (⟨today - 6 + (i : ℤ), 0⟩ : SP)))).2.2
      = [0, 0, 0, 0, 0, 0, 0] := rfl
  have hsent : analyze_sentiments scorer (([] : List Article).map Article.titulo) = [] := by
    cases scorer <;> rfl
  refine ⟨?_, ?_, ?_, ?_, ?_, ?_, ?_⟩
  · simp only [analyze]
    exact hs7
  · simp only [analyze, hs7, hvals]
    rw [show (trend_confidence [0, 0, 0, 0, 0, 0, 0]).slope = 0 by
      norm_num [trend_confidence, listGetQ, List.range_succ]]
    norm_num [pyRoundTo, pyRoundInt]
  · simp only [analyze, hs7, hvals]
    exact spikesOf_zero7 _
  · simp only [analyze, hsent]
    norm_num
  · simp only [analyze, hs7]
    exact gfp_zero7_previsoes today rand
  · simp only [analyze, hs7]
    exact gfp_zero7_confianca today rand
  · simp only [analyze]
    rfl

/-- C1 counterexample. At today = 0 with zero random draws, the forecast on
topic "X" with no articles has 7 points and confidence 0.7: the claim that it
is the insufficient-points default {points: [], confidence: 0} is false — the
series handed to the forecaster is the 7-point zero-filled window, not the
empty article list. -/
theorem C1_counterexample_forecast_nonempty :
    (analyze none none "X" [] (some 7) 0 0 (fun _ => 0)).future_predictions.previsoes ≠ []
    ∧ (analyze none none "X" [] (some 7) 0 0
        (fun _ => 0)).future_predictions.confianca ≠ 0 := by
  constructor
  · simp only [analyze, analyze_series_empty_7]
    rw [gfp_zero7_previsoes 0 (fun _ => 0)]
    decide
  · simp only [analyze, analyze_series_empty_7]
    rw [gfp_zero7_confianca 0 (fun _ => 0)]
    norm_num

/-! ### C10: the article list is never mutated -/

/-- `analyze` with the caller's article list threaded as explicit state.
Every stage of the source only reads `artigos` — `build_series` iterates it
(`for a in articles`, reading `a["dt"]`), `analyze_news_content` reads the
titles and `len(artigos)`, `_sentiment` reads the titles — and no statement of
`analyze` or its callees assigns into the list or its article dicts (no index
assignment, no append/remove, no key update), so each stage returns its
result paired with the list it received. -/
noncomputable def analyzeSt (scorer : Option (String → ℚ)) (refine : Option String)
    (tema : String) (artigos : List Article) (dias : Option ℤ)
    (today current_year : ℤ) (rand : ℕ → ℚ) : AnalyzeResult × List Article :=
  let s1 : List SP × List Article := (build_series artigos today dias, artigos)
  let series := pySort (fun a b => decide (a.date ≤ b.date)) s1.1
  let bv := basic_analyze series
  let resumo := summarize refine bv.1
  let tc := trend_confidence bv.2.2
  let s2 : ContentAnalysis × List Article :=
    (analyze_news_content scorer tema s1.2 series current_year, s1.2)
  let fut := generate_future_predictions series rand 7
  let spikes := spikesOf series bv.2.2
  let s3 : List ℚ × List Article :=
    (analyze_sentiments scorer (s2.2.map Article.titulo), s2.2)
  let sent_mean : ℚ :=
    if s3.1 ≠ [] then pyRoundTo (s3.1.sum / (max 1 s3.1.length : ℕ)) 3 else 0
  ({ series := series
     resumo := resumo
     hipoteses := bv.2.1
     trend := ⟨pyRoundTo tc.slope 6, pyRoundTo tc.pct 2, tc.last_delta, tc.label,
       pyRoundTo tc.score 4⟩
     sentiment_mean := sent_mean
     spikes := spikes
     future_predictions := fut
     content_analysis := s2.1 }, s3.2)

/-- C10. `analyze` returns without mutating its input article list: threading
the list through every stage as explicit state, the list coming out is the
list that went in — same elements, same order, unchanged fields — and the
result is the same as the pure `analyze`. -/
theorem C10_analyze_preserves_articles (scorer : Option (String → ℚ))
    (refine : Option String) (tema : String) (artigos : List Article)
    (dias : Option ℤ) (today y : ℤ) (rand : ℕ → ℚ) :
    (analyzeSt scorer refine tema artigos dias today y rand).2 = artigos
    ∧ (analyzeSt scorer refine tema artigos dias today y rand).1
        = analyze scorer refine tema artigos dias today y rand :=
  ⟨rfl, rfl⟩

end OrionAI
